import Mathlib

/-!
Shallow embedding of the Kasir API data-access core: the `pkg/database`
wrapper (transaction and statement helpers, row scanning, column mapping),
the category/product repositories and services built on it, and the health
HTTP handler.  Errors are modelled by their Go message text (`Option Err`,
with `none` for Go's nil error); fallible operations return `Except` or an
`Option Err` result, and resource/logging side effects are recorded as
explicit event lists.
-/

/-- Errors are modelled by their Go message text; `none` is Go's nil error. -/
abbrev Err := String

/-- A single straight quote, kept out of string literals. -/
def squote : String := String.singleton (Char.ofNat 39)

-- Transaction lifecycle (`DB.WithTx`) ---------------------------------------

/-- Driver-level outcomes a transaction can hit, mirroring the `testConfig`
fields of `wrapper_test.go` (`beginErr`, `commitErr`, `rollbackErr`). -/
structure TxConf where
  beginErr : Option Err := none
  commitErr : Option Err := none
  rollbackErr : Option Err := none
deriving DecidableEq

/-- Commit/rollback events emitted by a `WithTx` run. -/
inductive TxEv where
  | committed
  | rolledBack
deriving DecidableEq

/-- Result of a `WithTx` run: the returned error, the commit/rollback events
in order, and how many times the supplied function was invoked. -/
structure TxResult where
  err : Option Err
  events : List TxEv
  fnCalls : Nat
deriving DecidableEq

/-- Number of commits recorded. -/
def commitCount (events : List TxEv) : Nat := events.count TxEv.committed

/-- Number of rollbacks recorded. -/
def rollbackCount (events : List TxEv) : Nat := events.count TxEv.rolledBack

/-- Modelled from the spec: `DB.WithTx` of `pkg/database` (the wrapper source
file is absent from the sources; only `wrapper_test.go` remains).  Per the
spec it begins a transaction; if begin fails it returns that error without
invoking `fn`; if `fn` returns a non-nil error it rolls back and returns
`fn`'s error, not surfacing the rollback error; if `fn` succeeds it commits
and returns the commit error.  `fn` is represented by the error value it
returns, and the result records events and the `fn` invocation count. -/
def WithTx (c : TxConf) (fnErr : Option Err) : TxResult :=
  match c.beginErr with
  | some e => ⟨some e, [], 0⟩
  | none =>
    match fnErr with
    | some e => ⟨some e, [TxEv.rolledBack], 1⟩
    | none => ⟨c.commitErr, [TxEv.committed], 1⟩

-- Statement lifecycle and logging (`DB.WithStmt`, `Tx.WithStmt`) ------------

/-- Resource and logging events emitted while a statement helper runs. -/
inductive StmtEv where
  | prepared (query : String)
  | closedStmt (query : String)
  | logged (entry : String)
deriving DecidableEq

/-- Result of a `WithStmt` run: the returned error and the events in order. -/
structure StmtResult where
  err : Option Err
  events : List StmtEv
deriving DecidableEq

/-- Text shown for an error inside a log entry (Go's `%v` prints a nil error
as the text nil). -/
def errText : Option Err → String
  | none => "nil"
  | some e => e

/-- Modelled from the spec: the log entry written by `DB.WithStmt`, showing
the query text and the terminal error. -/
def dbLogEntry (query : String) (err : Option Err) : String :=
  "query: " ++ query ++ "; error: " ++ errText err

/-- Modelled from the spec: the log entry written by `Tx.WithStmt`; it is the
plain entry marked with a distinguishing transactional tag (the test
`TestTxWithStmt` requires the text tx: to occur in it). -/
def txLogEntry (query : String) (err : Option Err) : String :=
  "tx: " ++ dbLogEntry query err

/-- Number of log entries recorded. -/
def loggedCount (events : List StmtEv) : Nat :=
  events.countP (fun ev => match ev with | StmtEv.logged _ => true | _ => false)

/-- Number of statement closes recorded. -/
def closedCount (events : List StmtEv) : Nat :=
  events.countP (fun ev => match ev with | StmtEv.closedStmt _ => true | _ => false)

/-- The log entries recorded, in order. -/
def loggedEntries (events : List StmtEv) : List String :=
  events.filterMap (fun ev => match ev with | StmtEv.logged s => some s | _ => none)

/-- Modelled from the spec: `DB.WithStmt` of `pkg/database` (the wrapper
source file is absent; only `wrapper_test.go` remains).  It prepares the
query (a preparation failure returns that error at once — per
`TestDBWithStmt` nothing is logged or closed in that case), invokes `fn`
with the statement handle, logs the query text and terminal error exactly
once when logging is enabled, always closes the statement, and returns
whatever error `fn` produced.  `fn` is represented by the error it
returns. -/
def WithStmt (prepErr : Option Err) (logging : Bool) (query : String)
    (fnErr : Option Err) : StmtResult :=
  match prepErr with
  | some e => ⟨some e, []⟩
  | none =>
    ⟨fnErr,
      [StmtEv.prepared query]
        ++ (if logging then [StmtEv.logged (dbLogEntry query fnErr)] else [])
        ++ [StmtEv.closedStmt query]⟩

/-- Modelled from the spec: `Tx.WithStmt` mirrors `DB.WithStmt` but prepares
against the transaction and logs with the distinguishing transactional
tag. -/
def TxWithStmt (prepErr : Option Err) (logging : Bool) (query : String)
    (fnErr : Option Err) : StmtResult :=
  match prepErr with
  | some e => ⟨some e, []⟩
  | none =>
    ⟨fnErr,
      [StmtEv.prepared query]
        ++ (if logging then [StmtEv.logged (txLogEntry query fnErr)] else [])
        ++ [StmtEv.closedStmt query]⟩

-- Query iteration (`Stmt.Query`) --------------------------------------------

/-- Driver-level outcome of executing one query, mirroring `testQuery` of
`wrapper_test.go`: an error from the execution itself, an error surfaced by
the row fetch after the listed rows, and the rows in driver order. -/
structure QueryRes (α : Type) where
  queryErr : Option Err := none
  nextErr : Option Err := none
  rows : List α := []

/-- Iteration core of `Stmt.Query`: invoke `rowFn` on each row in order,
stopping at the first `rowFn` error; once the rows are exhausted the fetch
error (if any) is returned.  The second component lists the rows `rowFn`
was invoked on, in order. -/
def queryRows {α : Type} (rows : List α) (fetchErr : Option Err)
    (rowFn : α → Option Err) : Option Err × List α :=
  match rows with
  | [] => (fetchErr, [])
  | r :: rest =>
    match rowFn r with
    | some e => (some e, [r])
    | none =>
      let res := queryRows rest fetchErr rowFn
      (res.1, r :: res.2)

/-- Modelled from the spec: `Stmt.Query` of `pkg/database` (source file
absent; only `wrapper_test.go` remains).  Executes the query — an execution
error propagates with `rowFn` never invoked — then iterates the returned
rows invoking `rowFn` on each, stopping at the first error from `rowFn` or
from the underlying fetch. -/
def StmtQuery {α : Type} (res : QueryRes α) (rowFn : α → Option Err) :
    Option Err × List α :=
  match res.queryErr with
  | some e => (some e, [])
  | none => queryRows res.rows res.nextErr rowFn

-- Single-row scan (`Stmt.QueryRow` / `Row.Scan`) ----------------------------

/-- Go's `sql.ErrNoRows` message. -/
def errNoRows : Err := "sql: no rows in result set"

/-- Go's message for scanning a closed cursor. -/
def errRowsClosed : Err := "sql: Rows are closed"

/-- State of the single-row cursor a `Row.Scan` call observes, mirroring the
`TestRowScan` table: the query error captured at `QueryRow` time, whether
the underlying cursor was already closed, a fetch error, a close error, and
the rows the driver would return. -/
structure RowRes (α : Type) where
  queryErr : Option Err := none
  closed : Bool := false
  nextErr : Option Err := none
  closeErr : Option Err := none
  rows : List α := []

/-- Modelled from the spec: `Row.Scan` of `pkg/database` (source file absent;
only `wrapper_test.go` remains).  A captured query error propagates; a
cursor already closed fails with the rows-are-closed error; a fetch error
propagates; zero rows fail with the distinguished no-rows error; otherwise
the first row's values populate the destinations, and a close error (the
cursor is always released) propagates. -/
def RowScan {α : Type} (r : RowRes α) : Except Err α :=
  match r.queryErr with
  | some e => .error e
  | none =>
    if r.closed then .error errRowsClosed
    else
      match r.nextErr with
      | some e => .error e
      | none =>
        match r.rows with
        | [] => .error errNoRows
        | v :: _ =>
          match r.closeErr with
          | some e => .error e
          | none => .ok v

-- Column mapping (`find` / `mapColumns` / `Rows.Scan`) -----------------------

/-- Loop of the wrapper's `find`: first index of `value` carrying the running
index, `-1` when absent (mirrors the Go loop over the slice). -/
def findAux : List String → String → Int → Int
  | [], _, _ => -1
  | v :: rest, value, i => if v = value then i else findAux rest value (i + 1)

/-- Modelled from the spec: the wrapper's `find` helper (source file absent;
behaviour pinned by `TestFind`): index of `value` in `values`, `-1` when it
does not occur. -/
def find (values : List String) (value : String) : Int := findAux values value 0

/-- The column-not-found message of the mapper, exactly as `TestMapColumns`
and `TestRowsScan` expect it, naming the missing column. -/
def colNotFound (c : String) : Err :=
  "Could not find column " ++ squote ++ c ++ squote ++ ".\n"

/-- A destination struct field as the mapper sees it: a scalar field with its
optional per-field sql tag (an untagged field is skipped), or one level of
nested struct whose fields are flattened into the same matching pass. -/
inductive MField where
  | scalar (tag : Option String)
  | nested (sub : List (Option String))

/-- The tags of a field list in declaration order, nested structs
flattened. -/
def fieldTags : List MField → List (Option String)
  | [] => []
  | MField.scalar tag :: rest => tag :: fieldTags rest
  | MField.nested sub :: rest => sub ++ fieldTags rest

/-- Bind each tagged field to the index of its column, left to right; a tag
naming a column absent from the result set fails with the
column-not-found error. -/
def bindTags : List (Option String) → List String → Except Err (List (String × Nat))
  | [], _ => .ok []
  | none :: rest, columns => bindTags rest columns
  | some t :: rest, columns =>
    let i := find columns t
    if i < 0 then .error (colNotFound t)
    else
      match bindTags rest columns with
      | .error e => .error e
      | .ok bs => .ok ((t, i.toNat) :: bs)

/-- Modelled from the spec: the wrapper's `mapColumns` (source file absent;
behaviour pinned by `TestMapColumns`): enumerate the destination struct's
fields, match each tagged field to a result column by its tag, skip
untagged fields, flatten one level of nested structs, and fail with the
column-not-found error when a tag names no live column.  The result is the
positional binding of tags to column indices. -/
def mapColumns (fields : List MField) (columns : List String) :
    Except Err (List (String × Nat)) :=
  bindTags (fieldTags fields) columns

/-- A driver value as decoded into a destination. -/
inductive GoValue where
  | vInt (n : Int)
  | vStr (s : String)
  | vNull
deriving DecidableEq

/-- Modelled from the spec: `Rows.Scan` into a struct destination (source
file absent; behaviour pinned by `TestRowsScan`): compute the tag/column
binding via `mapColumns`, then populate each bound field with the row value
at its column position. -/
def RowsScan (fields : List MField) (columns : List String) (row : List GoValue) :
    Except Err (List (String × GoValue)) :=
  match mapColumns fields columns with
  | .error e => .error e
  | .ok bs => .ok (bs.map (fun b => (b.1, row.getD b.2 GoValue.vNull)))

-- Opening a connection (`database.Open`) -------------------------------------

/-- Outcome of `database.Open`, recording the shape a caller observes:
whether the returned wrapper pointer is nil, whether its embedded `sql.DB`
handle is nil, and the returned error. -/
structure OpenResult where
  wrapperNil : Bool
  innerNil : Bool
  err : Option Err
deriving DecidableEq

/-- Modelled from the spec: `database.Open` (source file absent; behaviour
pinned by `TestOpen`).  It forwards to `sql.Open` — which fails for a
driver name that was never registered, returning a nil handle — and wraps
whatever handle it got in a freshly allocated `DB` wrapper, returning that
wrapper (never nil itself) alongside the error. -/
def OpenDB (registered : List String) (driverName : String) : OpenResult :=
  if driverName ∈ registered then ⟨false, false, none⟩
  else ⟨false, true, some ("sql: unknown driver \"" ++ driverName
    ++ "\" (forgotten import?)")⟩

-- Category repository (`internal/categories/repository/repository.go`) ------

/-- One decoded row of the categories query: the five scanned columns. -/
structure CategoryRecord where
  id : Int
  name : String
  description : String
  createdAt : String
  updatedAt : String
deriving DecidableEq

/-- The zero value the `category` variable starts from. -/
def CategoryRecord.zero : CategoryRecord := ⟨0, "", "", "", ""⟩

/-- The response entity built from a decoded category.  The two timestamps
are carried as the scanned text; `datetime.ParseTime`'s timezone conversion
is outside every claim and not modelled. -/
structure RespCategory where
  id : Int
  name : String
  description : String
  createdAt : String
  updatedAt : String
deriving DecidableEq

/-- The repository's domain error for an absent category. -/
def errCategoryNotFound : Err := "category not found"

/-- The repository's domain error for an absent product. -/
def errProductNotFound : Err := "product not found"

/-- Embeds `categoryRepository.GetCategoryByID` of `repository.go`: run the
lookup through the wrapper (each fetched row overwrites the `category`
variable; the row function itself never fails), propagate any wrapper
error, then treat a decoded id still at its zero value as absence,
returning the domain error; otherwise build the response entity. -/
def GetCategoryByID (res : QueryRes CategoryRecord) : Except Err RespCategory :=
  match StmtQuery res (fun _ => none) with
  | (some e, _) => .error e
  | (none, processed) =>
    let category := processed.foldl (fun _ r => r) CategoryRecord.zero
    if category.id = 0 then .error errCategoryNotFound
    else .ok ⟨category.id, category.name, category.description,
      category.createdAt, category.updatedAt⟩

-- Product repository (implementation file absent) ----------------------------

/-- One decoded row of the products-with-category query. -/
structure ProductRecord where
  id : Int
  name : String
  price : Int
  stock : Int
  createdAt : String
  updatedAt : String
  categoryId : Int
  categoryName : String
deriving DecidableEq

/-- The zero value the decoded product starts from. -/
def ProductRecord.zero : ProductRecord := ⟨0, "", 0, 0, "", "", 0, ""⟩

/-- Modelled from the spec: `productRepository.GetProductByID` (the products
repository source file is absent; only `repository_test.go` remains).  Per
the spec's zero-value heuristic and `TestProductRepositoryGetProductByID`,
it mirrors the category lookup: wrapper errors propagate, a decoded id
still at its zero value means absence and yields the product domain
error. -/
def GetProductByID (res : QueryRes ProductRecord) : Except Err ProductRecord :=
  match StmtQuery res (fun _ => none) with
  | (some e, _) => .error e
  | (none, processed) =>
    let product := processed.foldl (fun _ r => r) ProductRecord.zero
    if product.id = 0 then .error errProductNotFound
    else .ok product

-- Category and product services ----------------------------------------------

/-- Repository invocations a service run performs, recorded in order. -/
inductive RepoCall where
  | getCategory (id : Int)
  | updateCategory (id : Int)
  | deleteCategory (id : Int)
  | getProduct (id : Int)
  | updateProduct (id : Int)
  | deleteProduct (id : Int)
deriving DecidableEq

/-- The category repository as the service sees it: the result each call
would produce. -/
structure CategoryRepoOracle where
  getCategoryByID : Int → Except Err RespCategory
  updateCategory : Int → Option Err
  deleteCategory : Int → Option Err

/-- Embeds `categoryService.UpdateCategory`: any error from the preceding
lookup — not only genuine absence — is replaced by the category-not-found
error and the mutating repository call is never made; otherwise the update
runs and its error is returned. -/
def SvcUpdateCategory (repo : CategoryRepoOracle) (id : Int) :
    Option Err × List RepoCall :=
  match repo.getCategoryByID id with
  | .error _ => (some errCategoryNotFound, [RepoCall.getCategory id])
  | .ok _ => (repo.updateCategory id,
      [RepoCall.getCategory id, RepoCall.updateCategory id])

/-- Embeds `categoryService.DeleteCategory`: same lookup guard as the
update. -/
def SvcDeleteCategory (repo : CategoryRepoOracle) (id : Int) :
    Option Err × List RepoCall :=
  match repo.getCategoryByID id with
  | .error _ => (some errCategoryNotFound, [RepoCall.getCategory id])
  | .ok _ => (repo.deleteCategory id,
      [RepoCall.getCategory id, RepoCall.deleteCategory id])

/-- The product repository as the service sees it. -/
structure ProductRepoOracle where
  getProductByID : Int → Except Err ProductRecord
  getCategoryByID : Int → Except Err CategoryRecord
  updateProduct : Int → Option Err
  deleteProduct : Int → Option Err

/-- Modelled from the spec: `productService.UpdateProduct` (the products
service source file is absent; behaviour pinned by
`TestProductService_UpdateProduct`).  Any error from the product lookup
yields the product-not-found error with no mutation; then any error from
the category lookup yields the category-not-found error with no mutation;
otherwise the update runs and its error is returned. -/
def SvcUpdateProduct (repo : ProductRepoOracle) (id catId : Int) :
    Option Err × List RepoCall :=
  match repo.getProductByID id with
  | .error _ => (some errProductNotFound, [RepoCall.getProduct id])
  | .ok _ =>
    match repo.getCategoryByID catId with
    | .error _ => (some errCategoryNotFound,
        [RepoCall.getProduct id, RepoCall.getCategory catId])
    | .ok _ => (repo.updateProduct id,
        [RepoCall.getProduct id, RepoCall.getCategory catId,
          RepoCall.updateProduct id])

/-- Modelled from the spec: `productService.DeleteProduct` (source file
absent; behaviour pinned by `TestProductService_DeleteProduct`): any error
from the product lookup yields the product-not-found error with no
mutation. -/
def SvcDeleteProduct (repo : ProductRepoOracle) (id : Int) :
    Option Err × List RepoCall :=
  match repo.getProductByID id with
  | .error _ => (some errProductNotFound, [RepoCall.getProduct id])
  | .ok _ => (repo.deleteProduct id,
      [RepoCall.getProduct id, RepoCall.deleteProduct id])

-- Health handler (`internal/health/delivery/http/http.go`) -------------------

/-- The health result the service hands the handler. -/
structure HealthCheck where
  name : String
  isHealthy : Bool
deriving DecidableEq

/-- The JSON envelope the handler writes: HTTP status, code, message. -/
structure APIResponse where
  status : Nat
  code : String
  message : String
deriving DecidableEq

/-- Embeds `HealthHandler.DB` of `http.go`: when the result is healthy and
the error nil it writes the 200 envelope; otherwise it builds the failure
message from `err.Error()` — dereferencing the error without a nil check,
so an unhealthy result alongside a nil error panics instead of writing a
response.  `none` models that nil-pointer panic. -/
def HealthHandlerDB (check : HealthCheck) (err : Option Err) :
    Option APIResponse :=
  if check.isHealthy && err.isNone then
    some ⟨200, "1000", check.name ++ " is healthy"⟩
  else
    match err with
    | some e => some ⟨503, "2000", check.name ++ " is not healthy because " ++ e⟩
    | none => none

-- Helper lemmas ---------------------------------------------------------------

theorem strAppend_assoc (a b c : String) : a ++ b ++ c = a ++ (b ++ c) :=
  congrArg String.mk (List.append_assoc a.data b.data c.data)

theorem strAppend_empty (a : String) : a ++ "" = a :=
  congrArg String.mk (List.append_nil a.data)

theorem queryRows_all_ok {α : Type} (rows : List α) (fe : Option Err)
    (rowFn : α → Option Err) (h : ∀ r ∈ rows, rowFn r = none) :
    queryRows rows fe rowFn = (fe, rows) := by
  induction rows with
  | nil => rfl
  | cons r rest ih =>
    have hr : rowFn r = none := h r (by simp)
    have hrest : ∀ x ∈ rest, rowFn x = none := fun x hx => h x (by simp [hx])
    simp [queryRows, hr, ih hrest]

theorem queryRows_first_err {α : Type} (pre : List α) (r : α) (post : List α)
    (fe : Option Err) (rowFn : α → Option Err) (e : Err)
    (hpre : ∀ x ∈ pre, rowFn x = none) (hr : rowFn r = some e) :
    queryRows (pre ++ r :: post) fe rowFn = (some e, pre ++ [r]) := by
  induction pre with
  | nil => simp [queryRows, hr]
  | cons x xs ih =>
    have hx : rowFn x = none := hpre x (by simp)
    have hxs : ∀ y ∈ xs, rowFn y = none := fun y hy => hpre y (by simp [hy])
    simp [queryRows, hx, ih hxs]

theorem findAux_neg_iff (values : List String) (value : String) :
    ∀ i : Int, 0 ≤ i → (findAux values value i < 0 ↔ value ∉ values) := by
  induction values with
  | nil => intro i _; simp [findAux]
  | cons v rest ih =>
    intro i hi
    by_cases hv : v = value
    · subst hv
      have hfa : findAux (v :: rest) v i = i := by simp [findAux]
      rw [hfa]
      exact iff_of_false (by omega) (by simp)
    · have hrec := ih (i + 1) (by omega)
      simp only [findAux, if_neg hv, hrec, List.mem_cons]
      constructor
      · intro hnr hor
        rcases hor with h1 | h2
        · exact hv h1.symm
        · exact hnr h2
      · intro hnc
        exact fun h2 => hnc (Or.inr h2)

theorem find_neg_iff (columns : List String) (t : String) :
    find columns t < 0 ↔ t ∉ columns :=
  findAux_neg_iff columns t 0 (by omega)

theorem bindTags_missing (tags : List (Option String)) (columns : List String)
    (h : ∃ t, some t ∈ tags ∧ t ∉ columns) :
    ∃ t2, t2 ∉ columns ∧ bindTags tags columns = .error (colNotFound t2) := by
  induction tags with
  | nil =>
    obtain ⟨t, ht, _⟩ := h
    simp at ht
  | cons tag rest ih =>
    match tag with
    | none =>
      obtain ⟨t, ht, hnc⟩ := h
      have htr : some t ∈ rest := by simpa using ht
      obtain ⟨t2, h1, h2⟩ := ih ⟨t, htr, hnc⟩
      exact ⟨t2, h1, by simpa [bindTags] using h2⟩
    | some u =>
      by_cases hu : find columns u < 0
      · exact ⟨u, (find_neg_iff columns u).mp hu, by simp [bindTags, hu]⟩
      · obtain ⟨t, ht, hnc⟩ := h
        have htr : some t ∈ rest := by
          rcases List.mem_cons.mp ht with h1 | h2
          · injection h1 with h1
            subst h1
            exact absurd ((find_neg_iff columns t).mpr hnc) hu
          · exact h2
        obtain ⟨t2, h1, h2⟩ := ih ⟨t, htr, hnc⟩
        exact ⟨t2, h1, by simp [bindTags, hu, h2]⟩

-- Claim theorems --------------------------------------------------------------

/-- Claim C1: for every `WithTx(fn)` call — if beginning the transaction
fails, `WithTx` returns the begin error and `fn` is never invoked; if `fn`
returns a non-nil error, exactly one rollback and zero commits occur and
`fn`'s error is returned whatever the configured rollback error is; if `fn`
returns nil, exactly one commit and zero rollbacks occur and the commit
error (nil on success) is returned. -/
theorem withTx_spec (c : TxConf) (fnErr : Option Err) :
    (∀ e, c.beginErr = some e →
      (WithTx c fnErr).err = some e ∧ (WithTx c fnErr).fnCalls = 0)
    ∧ (∀ e, c.beginErr = none → fnErr = some e →
      (WithTx c fnErr).err = some e
        ∧ rollbackCount (WithTx c fnErr).events = 1
        ∧ commitCount (WithTx c fnErr).events = 0
        ∧ (WithTx c fnErr).fnCalls = 1)
    ∧ (c.beginErr = none → fnErr = none →
      (WithTx c fnErr).err = c.commitErr
        ∧ commitCount (WithTx c fnErr).events = 1
        ∧ rollbackCount (WithTx c fnErr).events = 0
        ∧ (WithTx c fnErr).fnCalls = 1) := by
  refine ⟨?_, ?_, ?_⟩
  · intro e h
    simp [WithTx, h]
  · intro e h1 h2
    simp [WithTx, h1, h2, rollbackCount, commitCount]
  · intro h1 h2
    simp [WithTx, h1, h2, rollbackCount, commitCount]

/-- Concrete witness for `withTx_spec`: a failing function with a rollback
error configured still surfaces the function's error and rolls back once. -/
theorem withTx_spec_witness :
    (WithTx ⟨none, none, some "rb"⟩ (some "fn")).err = some "fn"
      ∧ rollbackCount (WithTx ⟨none, none, some "rb"⟩ (some "fn")).events = 1
      ∧ commitCount (WithTx ⟨none, none, some "rb"⟩ (some "fn")).events = 0
      ∧ (WithTx ⟨none, none, some "rb"⟩ (some "fn")).fnCalls = 1 :=
  (withTx_spec ⟨none, none, some "rb"⟩ (some "fn")).2.1 "fn" rfl rfl

/-- Claim C2 counterexample: a `WithStmt` call whose preparation fails, run
with logging enabled, records no log entry at all — not exactly one. -/
theorem withStmt_prepare_fail_no_log :
    (WithStmt (some "prep") true "select 1" none).err = some "prep"
      ∧ loggedCount (WithStmt (some "prep") true "select 1" none).events = 0
      ∧ ¬ loggedCount (WithStmt (some "prep") true "select 1" none).events = 1 := by
  refine ⟨rfl, rfl, ?_⟩
  decide

/-- Claim C2 (amended): every `WithStmt` call whose preparation succeeds
closes the prepared statement exactly once on both exit paths, returns
`fn`'s error, and — logging enabled — records exactly one log entry
containing the query text and the terminal error; a call whose preparation
fails returns the preparation error and records no log entry and no
close. -/
theorem withStmt_spec (query : String) (fnErr : Option Err) :
    (WithStmt none true query fnErr).err = fnErr
      ∧ closedCount (WithStmt none true query fnErr).events = 1
      ∧ loggedEntries (WithStmt none true query fnErr).events
          = [dbLogEntry query fnErr]
      ∧ (∃ a b, dbLogEntry query fnErr = a ++ query ++ b)
      ∧ (∃ a b, dbLogEntry query fnErr = a ++ errText fnErr ++ b)
      ∧ (∀ e lg, (WithStmt (some e) lg query fnErr).err = some e
          ∧ loggedCount (WithStmt (some e) lg query fnErr).events = 0
          ∧ closedCount (WithStmt (some e) lg query fnErr).events = 0) := by
  refine ⟨rfl, rfl, rfl, ?_, ?_, ?_⟩
  · exact ⟨"query: ", "; error: " ++ errText fnErr, strAppend_assoc _ _ _⟩
  · exact ⟨"query: " ++ query ++ "; error: ", "", (strAppend_empty _).symm⟩
  · intro e lg
    exact ⟨rfl, rfl, rfl⟩

/-- Claim C7: with logging enabled, a `Tx.WithStmt` run records exactly one
log entry carrying the transactional tag as a prefix, while the
corresponding `DB.WithStmt` entry for the same query and outcome never
starts with that tag. -/
theorem txWithStmt_log_tag (query : String) (fnErr : Option Err) :
    loggedEntries (TxWithStmt none true query fnErr).events
        = [txLogEntry query fnErr]
      ∧ (∃ rest, txLogEntry query fnErr = "tx: " ++ rest)
      ∧ loggedEntries (WithStmt none true query fnErr).events
          = [dbLogEntry query fnErr]
      ∧ (∀ rest, dbLogEntry query fnErr ≠ "tx: " ++ rest) := by
  refine ⟨rfl, ⟨dbLogEntry query fnErr, rfl⟩, rfl, ?_⟩
  intro rest h
  have h1 : (dbLogEntry query fnErr).data.head? = some 'q' := rfl
  rw [h] at h1
  have h2 : (("tx: " ++ rest) : String).data.head? = some 't' := rfl
  rw [h2] at h1
  exact absurd h1 (by decide)

/-- Concrete witness for `txWithStmt_log_tag`: the plain statement log entry
for a sample query is not the transactional tag followed by anything. -/
theorem txWithStmt_log_tag_witness :
    dbLogEntry "select 1" (some "fn") ≠ "tx: " ++ "query: select 1; error: fn" :=
  (txWithStmt_log_tag "select 1" (some "fn")).2.2.2 "query: select 1; error: fn"

/-- Claim C3: for every `Stmt.Query(rowFn)` call — `rowFn` is invoked once
per returned row in driver order (the processed list equals the row list
when nothing fails, and the fetch error then propagates); an execution
error propagates with `rowFn` never invoked; iteration stops at the first
`rowFn` error, which propagates; and on zero rows `rowFn` is never invoked
and nil is returned. -/
theorem stmtQuery_spec {α : Type} (res : QueryRes α) (rowFn : α → Option Err) :
    (res.queryErr = none → (∀ r ∈ res.rows, rowFn r = none) →
      StmtQuery res rowFn = (res.nextErr, res.rows))
    ∧ (∀ e, res.queryErr = some e → StmtQuery res rowFn = (some e, []))
    ∧ (∀ pre r post e, res.queryErr = none → res.rows = pre ++ r :: post →
      (∀ x ∈ pre, rowFn x = none) → rowFn r = some e →
      StmtQuery res rowFn = (some e, pre ++ [r]))
    ∧ (res.queryErr = none → res.nextErr = none → res.rows = [] →
      StmtQuery res rowFn = (none, [])) := by
  refine ⟨?_, ?_, ?_, ?_⟩
  · intro h1 h2
    simp [StmtQuery, h1, queryRows_all_ok _ _ _ h2]
  · intro e h
    simp [StmtQuery, h]
  · intro pre r post e h1 h2 h3 h4
    simp [StmtQuery, h1, h2, queryRows_first_err pre r post _ _ e h3 h4]
  · intro h1 h2 h3
    simp [StmtQuery, h1, h2, h3, queryRows]

/-- Concrete witness for `stmtQuery_spec`: two rows, a row function that
always succeeds — both rows are processed in order and nil is returned. -/
theorem stmtQuery_spec_witness :
    StmtQuery (⟨none, none, [1, 2]⟩ : QueryRes Nat) (fun _ => none)
      = (none, [1, 2]) :=
  (stmtQuery_spec ⟨none, none, [1, 2]⟩ (fun _ => none)).1 rfl (fun _ _ => rfl)

/-- Claim C4: a single-row `QueryRow().Scan` — against zero rows it returns
the distinguished no-rows error; against a result with a first row it
returns nil and populates the destinations with that row's values; against
a cursor already closed it returns the rows-are-closed error; and the two
error texts are distinct. -/
theorem rowScan_spec {α : Type} (r : RowRes α) :
    (r.queryErr = none → r.closed = false → r.nextErr = none → r.rows = [] →
      RowScan r = .error errNoRows)
    ∧ (∀ v rest, r.queryErr = none → r.closed = false → r.nextErr = none →
      r.closeErr = none → r.rows = v :: rest → RowScan r = .ok v)
    ∧ (r.queryErr = none → r.closed = true → RowScan r = .error errRowsClosed)
    ∧ errNoRows ≠ errRowsClosed := by
  refine ⟨?_, ?_, ?_, by decide⟩
  · intro h1 h2 h3 h4
    simp [RowScan, h1, h2, h3, h4]
  · intro v rest h1 h2 h3 h4 h5
    simp [RowScan, h1, h2, h3, h4, h5]
  · intro h1 h2
    simp [RowScan, h1, h2]

/-- Concrete witness for `rowScan_spec`: a healthy cursor over one row yields
that row's value. -/
theorem rowScan_spec_witness :
    RowScan (⟨none, false, none, none, [GoValue.vInt 11]⟩ : RowRes GoValue)
      = .ok (GoValue.vInt 11) :=
  (rowScan_spec ⟨none, false, none, none, [GoValue.vInt 11]⟩).2.1
    (GoValue.vInt 11) [] rfl rfl rfl rfl rfl

/-- Claim C5: struct-destination row mapping — mapping a row with columns id
and name into a struct tagged id and name yields the row's values on the
tagged fields; a tag naming a column absent from the live result set fails
with the column-not-found error, whose text names the missing column; and
in general whenever some tagged field's tag is absent from the columns,
mapping fails with a column-not-found error for an absent column. -/
theorem rowsScan_spec :
    RowsScan [MField.scalar (some "id"), MField.scalar (some "name")]
        ["id", "name"] [GoValue.vInt 1, GoValue.vStr "a"]
      = .ok [("id", GoValue.vInt 1), ("name", GoValue.vStr "a")]
    ∧ (∀ row, RowsScan [MField.scalar (some "missing")] ["id"] row
        = .error (colNotFound "missing"))
    ∧ (∃ a b, colNotFound "missing" = a ++ "missing" ++ b)
    ∧ (∀ fields columns, (∃ t, some t ∈ fieldTags fields ∧ t ∉ columns) →
      ∃ t2, t2 ∉ columns ∧ mapColumns fields columns = .error (colNotFound t2)) := by
  refine ⟨rfl, fun _ => rfl, ?_, ?_⟩
  · exact ⟨"Could not find column " ++ squote, squote ++ ".\n",
      strAppend_assoc _ _ _⟩
  · intro fields columns h
    exact bindTags_missing (fieldTags fields) columns h

/-- Concrete witness for `rowsScan_spec`: the struct tagged with the absent
column missing against a result set whose only column is id. -/
theorem rowsScan_spec_witness :
    ∃ t2, t2 ∉ ["id"]
      ∧ mapColumns [MField.scalar (some "missing")] ["id"]
          = .error (colNotFound t2) :=
  rowsScan_spec.2.2.2 [MField.scalar (some "missing")] ["id"]
    ⟨"missing", by decide, by decide⟩

/-- Claim C6: an identifier lookup whose query returns zero rows — the
wrapper itself reports no error, and the repository detects absence through
the decoded identifier still at its zero value, returning the domain errors
category not found / product not found with no result; a fetched row whose
id decodes to zero is treated the same way. -/
theorem getByID_zero_rows (res : QueryRes CategoryRecord)
    (pres : QueryRes ProductRecord) :
    (res.queryErr = none → res.nextErr = none → res.rows = [] →
      StmtQuery res (fun _ => none) = (none, [])
        ∧ GetCategoryByID res = .error errCategoryNotFound)
    ∧ (pres.queryErr = none → pres.nextErr = none → pres.rows = [] →
      GetProductByID pres = .error errProductNotFound)
    ∧ (∀ row, res.queryErr = none → res.nextErr = none → res.rows = [row] →
      row.id = 0 → GetCategoryByID res = .error errCategoryNotFound) := by
  refine ⟨?_, ?_, ?_⟩
  · intro h1 h2 h3
    constructor
    · simp [StmtQuery, h1, h2, h3, queryRows]
    · simp [GetCategoryByID, StmtQuery, h1, h2, h3, queryRows, CategoryRecord.zero]
  · intro h1 h2 h3
    simp [GetProductByID, StmtQuery, h1, h2, h3, queryRows, ProductRecord.zero]
  · intro row h1 h2 h3 h4
    simp [GetCategoryByID, StmtQuery, h1, h2, h3, queryRows, h4]

/-- Concrete witness for `getByID_zero_rows`: both lookups against an
entirely empty, error-free result set. -/
theorem getByID_zero_rows_witness :
    (StmtQuery (⟨none, none, []⟩ : QueryRes CategoryRecord) (fun _ => none)
        = (none, [])
      ∧ GetCategoryByID ⟨none, none, []⟩ = .error errCategoryNotFound)
    ∧ GetProductByID ⟨none, none, []⟩ = .error errProductNotFound :=
  ⟨(getByID_zero_rows ⟨none, none, []⟩ ⟨none, none, []⟩).1 rfl rfl rfl,
    (getByID_zero_rows ⟨none, none, []⟩ ⟨none, none, []⟩).2.1 rfl rfl rfl⟩

/-- Claim C8: when the health service hands `HealthHandler.DB` a result with
`IsHealthy` false together with a nil error (the shape `TestHealthHandlerDB`
drives through the service interface), the handler reaches the failure
branch and dereferences the nil error, panicking instead of writing a
response. -/
theorem healthHandlerDB_nil_err_panics (name : String) :
    HealthHandlerDB ⟨name, false⟩ none = none := rfl

/-- Claim C9: every failing `database.Open` call (an unregistered driver
name) returns a non-nil `DB` wrapper whose embedded `sql.DB` handle is nil,
alongside the error — so a caller checking only the wrapper for nil gets an
unusable handle. -/
theorem openDB_failure_shape (registered : List String) (driverName : String)
    (h : driverName ∉ registered) :
    (OpenDB registered driverName).err.isSome = true
      ∧ (OpenDB registered driverName).wrapperNil = false
      ∧ (OpenDB registered driverName).innerNil = true := by
  simp [OpenDB, h]

/-- Concrete witness for `openDB_failure_shape`: opening the never-registered
driver name. -/
theorem openDB_failure_shape_witness :
    (OpenDB [] "missing_driver").err.isSome = true
      ∧ (OpenDB [] "missing_driver").wrapperNil = false
      ∧ (OpenDB [] "missing_driver").innerNil = true :=
  openDB_failure_shape [] "missing_driver" (by simp)

/-- Claim C10: whenever the lookup guarding a category/product mutation
returns any non-nil error — transient failures included — the service
returns the category-not-found / product-not-found error and the mutating
repository operation is never invoked, so stored state is untouched. -/
theorem svcMutation_guard (crepo : CategoryRepoOracle)
    (prepo : ProductRepoOracle) (id catId : Int) :
    (∀ e, crepo.getCategoryByID id = .error e →
      (SvcUpdateCategory crepo id).1 = some errCategoryNotFound
        ∧ RepoCall.updateCategory id ∉ (SvcUpdateCategory crepo id).2)
    ∧ (∀ e, crepo.getCategoryByID id = .error e →
      (SvcDeleteCategory crepo id).1 = some errCategoryNotFound
        ∧ RepoCall.deleteCategory id ∉ (SvcDeleteCategory crepo id).2)
    ∧ (∀ e, prepo.getProductByID id = .error e →
      (SvcUpdateProduct prepo id catId).1 = some errProductNotFound
        ∧ RepoCall.updateProduct id ∉ (SvcUpdateProduct prepo id catId).2)
    ∧ (∀ e, prepo.getProductByID id = .error e →
      (SvcDeleteProduct prepo id).1 = some errProductNotFound
        ∧ RepoCall.deleteProduct id ∉ (SvcDeleteProduct prepo id).2) := by
  refine ⟨?_, ?_, ?_, ?_⟩ <;> intro e h <;>
    simp [SvcUpdateCategory, SvcDeleteCategory, SvcUpdateProduct,
      SvcDeleteProduct, h]

/-- Concrete witness for `svcMutation_guard`: a category repository whose
lookup fails with a transient database error. -/
theorem svcMutation_guard_witness :
    (SvcUpdateCategory ⟨fun _ => Except.error "db down", fun _ => none,
        fun _ => none⟩ 7).1 = some errCategoryNotFound
      ∧ RepoCall.updateCategory 7 ∉ (SvcUpdateCategory
          ⟨fun _ => Except.error "db down", fun _ => none, fun _ => none⟩ 7).2 :=
  (svcMutation_guard ⟨fun _ => Except.error "db down", fun _ => none,
      fun _ => none⟩
    ⟨fun _ => Except.error "no product", fun _ => Except.error "no category",
      fun _ => none, fun _ => none⟩ 7 3).1 "db down" rfl
